import Mathlib

/-!
# Worker-Management-System: Monthly Reconciliation Engine

Shallow embedding of `src/components/ReportManager.tsx` — the monthly
reconciliation engine (`generateMonthlyReport`), the balance formatter
(`formatBalance`), the employee search filter (`filteredEmployees`) and
the payslip text exporter (the `reportContent` template of
`downloadReport`).

Modelling conventions:
* Monetary values are `Int` (the source uses JS numbers for currency;
  the spec mandates exact integer/decimal accumulation, and all of the
  engine's arithmetic is `+`/`-` only).
* Calendar dates are `(year, month, day)` triples ordered
  lexicographically; this models JS `Date` comparison of ISO date-only
  strings under the reference (UTC) environment.  `monthStart` is day 1
  and `monthEnd` is `new Date(y, m+1, 0)`, i.e. the last calendar day of
  the month, with Gregorian leap years.
* The `YYYY-MM` month token argument is represented already parsed as a
  `(year, month)` pair; only its two numeric components are ever used by
  the engine.
* External collaborators (`formatCurrency`, locale date formatting, the
  "Generated on" timestamp) are parameters of the functions that use
  them, since they live outside this file's source.
* TS optional fields are `Option`; JS truthiness tests on numbers
  (`if (record.customAmount)`) are modelled as "is `some c` with
  `c ≠ 0`".
* `customType` is one of the three literal tags `'ot' | 'half-day' |
  'custom'` compared with `===`; modelled as an inductive type.
-/

namespace WMS

/-- `Employee` from `types.ts`: identity, display name, designation,
fixed daily wage, contact info, optional photo. -/
structure Employee where
  id : String
  name : String
  designation : String
  dailyWage : Int
  contactNumber : String
  photo : Option String
deriving DecidableEq, Repr

/-- The custom-adjustment category tag: `'ot' | 'half-day' | 'custom'`. -/
inductive CustomType where
  | ot
  | halfDay
  | custom
deriving DecidableEq, Repr

/-- The literal string of the tag, as it appears in the TS union and in
the exported payslip (`${a.customType}`). -/
def CustomType.toStr : CustomType → String
  | .ot => "ot"
  | .halfDay => "half-day"
  | .custom => "custom"

/-- A calendar date `(year, month, day)`; `month` is 1-based. -/
structure Date where
  year : Int
  month : Nat
  day : Nat
deriving DecidableEq, Repr

/-- Lexicographic order on calendar dates: models comparison of JS
`Date` timestamps built from date-only values. -/
def Date.le (d1 d2 : Date) : Bool :=
  decide (d1.year < d2.year) ||
    (decide (d1.year = d2.year) &&
      (decide (d1.month < d2.month) ||
        (decide (d1.month = d2.month) && decide (d1.day ≤ d2.day))))

/-- Gregorian leap year, as implemented by the JS `Date` calendar. -/
def isLeapYear (y : Int) : Bool :=
  y % 4 == 0 && (y % 100 != 0 || y % 400 == 0)

/-- Number of days of month `m` of year `y`: the day-of-month of
`new Date(y, m, 0)`, i.e. of "day 0 of the next month". -/
def daysInMonth (y : Int) (m : Nat) : Nat :=
  if m = 2 then (if isLeapYear y then 29 else 28)
  else if m = 4 ∨ m = 6 ∨ m = 9 ∨ m = 11 then 30
  else 31

/-- A parsed `YYYY-MM` month token. -/
structure Month where
  year : Int
  month : Nat
deriving DecidableEq, Repr

/-- `AttendanceRecord` from `types.ts`: one employee, one calendar date,
a presence flag, and an optional custom adjustment (category tag and
amount). -/
structure AttendanceRecord where
  id : String
  employeeId : String
  date : Date
  present : Bool
  customType : Option CustomType
  customAmount : Option Int
deriving DecidableEq, Repr

/-- `Advance` from `types.ts`: employee, date, amount, description. -/
structure Advance where
  id : String
  employeeId : String
  date : Date
  amount : Int
  description : String
deriving DecidableEq, Repr

/-- `SalaryPayment` from `types.ts`: employee, payment date, amount,
description. -/
structure SalaryPayment where
  id : String
  employeeId : String
  paymentDate : Date
  amount : Int
  description : String
deriving DecidableEq, Repr

/-- `MonthlyReport` from `types.ts`, as returned by
`generateMonthlyReport`. -/
structure MonthlyReport where
  employeeId : String
  month : Month
  totalDaysWorked : Nat
  baseWages : Int
  additionalEarnings : Int
  totalWagesEarned : Int
  totalAdvancesTaken : Int
  totalSalaryPaid : Int
  finalAmount : Int
  attendanceDetails : List AttendanceRecord
  advanceDetails : List Advance
  salaryPaymentDetails : List SalaryPayment
  otRecords : List AttendanceRecord
  halfDayRecords : List AttendanceRecord
  customPaymentRecords : List AttendanceRecord
deriving DecidableEq, Repr

/-- `generateMonthlyReport(employeeId, month)` of `ReportManager.tsx`
(lines 29–109).  The component's three props (`employees`, `attendance`,
`advances`) and the Firestore-loaded `salaryPayments` collection are
explicit arguments. -/
def generateMonthlyReport (employees : List Employee)
    (attendance : List AttendanceRecord) (advances : List Advance)
    (salaryPayments : List SalaryPayment)
    (employeeId : String) (month : Month) : Option MonthlyReport :=
  match employees.find? (fun e => e.id == employeeId) with
  | none => none
  | some employee =>
    let monthStart : Date := ⟨month.year, month.month, 1⟩
    let monthEnd : Date :=
      ⟨month.year, month.month, daysInMonth month.year month.month⟩
    -- Get attendance records for the month
    let monthAttendance := attendance.filter (fun a =>
      a.employeeId == employeeId &&
        Date.le monthStart a.date && Date.le a.date monthEnd)
    -- Get advance records for the month
    let monthAdvances := advances.filter (fun a =>
      a.employeeId == employeeId &&
        Date.le monthStart a.date && Date.le a.date monthEnd)
    -- Get salary payment records for the month
    let monthSalaryPayments := salaryPayments.filter (fun p =>
      p.employeeId == employeeId &&
        Date.le monthStart p.paymentDate && Date.le p.paymentDate monthEnd)
    -- Calculate totals with proper breakdown
    let totalDaysWorked := (monthAttendance.filter (fun a => a.present)).length
    -- the `forEach` loop accumulating `baseWages` and `additionalEarnings`
    let acc := monthAttendance.foldl
      (fun (p : Int × Int) record =>
        ( if record.present then p.1 + employee.dailyWage else p.1,
          match record.customAmount with
          | some c => if c ≠ 0 then p.2 + c else p.2  -- `if (record.customAmount)`
          | none => p.2 ))
      (0, 0)
    let baseWages := acc.1
    let additionalEarnings := acc.2
    let totalWagesEarned := baseWages + additionalEarnings
    let totalAdvancesTaken := monthAdvances.foldl (fun sum a => sum + a.amount) 0
    let totalSalaryPaid := monthSalaryPayments.foldl (fun sum p => sum + p.amount) 0
    -- Final amount calculation: Total wages - Advances - Salary already paid
    let finalAmount := totalWagesEarned - totalAdvancesTaken - totalSalaryPaid
    -- Get detailed breakdown of additional earnings
    let otRecords := monthAttendance.filter
      (fun record => record.customType == some CustomType.ot)
    let halfDayRecords := monthAttendance.filter
      (fun record => record.customType == some CustomType.halfDay)
    let customPaymentRecords := monthAttendance.filter
      (fun record => record.customType == some CustomType.custom)
    some
      { employeeId := employeeId
        month := month
        totalDaysWorked := totalDaysWorked
        baseWages := baseWages
        additionalEarnings := additionalEarnings
        totalWagesEarned := totalWagesEarned
        totalAdvancesTaken := totalAdvancesTaken
        totalSalaryPaid := totalSalaryPaid
        finalAmount := finalAmount
        attendanceDetails := monthAttendance
        advanceDetails := monthAdvances
        salaryPaymentDetails := monthSalaryPayments
        otRecords := otRecords
        halfDayRecords := halfDayRecords
        customPaymentRecords := customPaymentRecords }

/-- `formatBalance` of `ReportManager.tsx` (lines 112–116).
`formatCurrency` lives in `utils/dateUtils` outside this file, so it is
a parameter. -/
def formatBalance (formatCurrency : Int → String) (balance : Int) : String :=
  if balance = 0 then formatCurrency 0
  else if balance > 0 then "+" ++ formatCurrency balance  -- Employee is owed money
  else "+" ++ formatCurrency |balance|  -- Company is owed money (overpaid)

/-- JS `String.prototype.toLowerCase()`: lower-cases every character. -/
def jsToLower (s : String) : String :=
  ⟨s.data.map Char.toLower⟩

/-- `filteredEmployees` of `ReportManager.tsx` (lines 118–121):
case-insensitive substring match of the search term against name or
designation.  JS `String.prototype.includes` is substring containment,
modelled as `List.IsInfix` on the character data. -/
def filteredEmployees (employees : List Employee) (searchTerm : String) :
    List Employee :=
  employees.filter (fun employee =>
    decide ((jsToLower searchTerm).data <:+: (jsToLower employee.name).data) ||
    decide ((jsToLower searchTerm).data <:+: (jsToLower employee.designation).data))

/-- The month-membership test the engine applies to every date-bearing
record: `monthStart <= d && d <= monthEnd`, inclusive on both ends. -/
def inMonthRange (month : Month) (d : Date) : Bool :=
  Date.le ⟨month.year, month.month, 1⟩ d &&
    Date.le d ⟨month.year, month.month, daysInMonth month.year month.month⟩

/-- The engine's filtered attendance collection (`monthAttendance`). -/
def monthAttendanceOf (attendance : List AttendanceRecord)
    (employeeId : String) (month : Month) : List AttendanceRecord :=
  attendance.filter (fun a =>
    a.employeeId == employeeId &&
      Date.le ⟨month.year, month.month, 1⟩ a.date &&
      Date.le a.date ⟨month.year, month.month, daysInMonth month.year month.month⟩)

/-- The engine's filtered advance collection (`monthAdvances`). -/
def monthAdvancesOf (advances : List Advance)
    (employeeId : String) (month : Month) : List Advance :=
  advances.filter (fun a =>
    a.employeeId == employeeId &&
      Date.le ⟨month.year, month.month, 1⟩ a.date &&
      Date.le a.date ⟨month.year, month.month, daysInMonth month.year month.month⟩)

/-- The engine's filtered salary-payment collection
(`monthSalaryPayments`). -/
def monthSalaryPaymentsOf (salaryPayments : List SalaryPayment)
    (employeeId : String) (month : Month) : List SalaryPayment :=
  salaryPayments.filter (fun p =>
    p.employeeId == employeeId &&
      Date.le ⟨month.year, month.month, 1⟩ p.paymentDate &&
      Date.le p.paymentDate ⟨month.year, month.month, daysInMonth month.year month.month⟩)

theorem foldl_add_sum {α : Type} (f : α → Int) :
    ∀ (l : List α) (init : Int),
      l.foldl (fun s a => s + f a) init = init + (l.map f).sum
  | [], init => by simp
  | a :: l, init => by
    simp only [List.foldl_cons, List.map_cons, List.sum_cons,
      foldl_add_sum f l (init + f a)]
    ring

theorem wages_foldl (w : Int) :
    ∀ (l : List AttendanceRecord) (p : Int × Int),
      l.foldl
        (fun (p : Int × Int) record =>
          ( if record.present then p.1 + w else p.1,
            match record.customAmount with
            | some c => if c ≠ 0 then p.2 + c else p.2
            | none => p.2 )) p
      = ( p.1 + ((l.filter (fun a => a.present)).length : Int) * w,
          p.2 + (l.map (fun a => a.customAmount.getD 0)).sum )
  | [], p => by simp
  | a :: l, p => by
    simp only [List.foldl_cons, wages_foldl w l, List.filter_cons,
      List.map_cons, List.sum_cons]
    rcases ha : a.present with _ | _ <;> rcases hc : a.customAmount with _ | c
    · simp [ha, hc]
    · by_cases hc0 : c = 0 <;> refine Prod.ext_iff.mpr ⟨?_, ?_⟩ <;>
        simp [ha, hc, hc0] <;> push_cast <;> ring
    · refine Prod.ext_iff.mpr ⟨?_, ?_⟩ <;> simp [ha, hc] <;> push_cast <;> ring
    · by_cases hc0 : c = 0 <;> refine Prod.ext_iff.mpr ⟨?_, ?_⟩ <;>
        simp [ha, hc, hc0] <;> push_cast <;> ring

/-- What a successful `generateMonthlyReport` returns: the employee
lookup succeeded and every field of the report is the corresponding
filter/aggregate of the inputs. -/
theorem generateMonthlyReport_eq_some
    {employees : List Employee} {attendance : List AttendanceRecord}
    {advances : List Advance} {salaryPayments : List SalaryPayment}
    {employeeId : String} {month : Month} {r : MonthlyReport}
    (h : generateMonthlyReport employees attendance advances salaryPayments
      employeeId month = some r) :
    ∃ e, employees.find? (fun x => x.id == employeeId) = some e ∧
      r = { employeeId := employeeId
            month := month
            totalDaysWorked :=
              ((monthAttendanceOf attendance employeeId month).filter
                (fun a => a.present)).length
            baseWages :=
              (((monthAttendanceOf attendance employeeId month).filter
                (fun a => a.present)).length : Int) * e.dailyWage
            additionalEarnings :=
              ((monthAttendanceOf attendance employeeId month).map
                (fun a => a.customAmount.getD 0)).sum
            totalWagesEarned :=
              (((monthAttendanceOf attendance employeeId month).filter
                (fun a => a.present)).length : Int) * e.dailyWage +
              ((monthAttendanceOf attendance employeeId month).map
                (fun a => a.customAmount.getD 0)).sum
            totalAdvancesTaken :=
              ((monthAdvancesOf advances employeeId month).map
                (fun a => a.amount)).sum
            totalSalaryPaid :=
              ((monthSalaryPaymentsOf salaryPayments employeeId month).map
                (fun p => p.amount)).sum
            finalAmount :=
              ((((monthAttendanceOf attendance employeeId month).filter
                (fun a => a.present)).length : Int) * e.dailyWage +
              ((monthAttendanceOf attendance employeeId month).map
                (fun a => a.customAmount.getD 0)).sum) -
              ((monthAdvancesOf advances employeeId month).map
                (fun a => a.amount)).sum -
              ((monthSalaryPaymentsOf salaryPayments employeeId month).map
                (fun p => p.amount)).sum
            attendanceDetails := monthAttendanceOf attendance employeeId month
            advanceDetails := monthAdvancesOf advances employeeId month
            salaryPaymentDetails :=
              monthSalaryPaymentsOf salaryPayments employeeId month
            otRecords :=
              (monthAttendanceOf attendance employeeId month).filter
                (fun record => record.customType == some CustomType.ot)
            halfDayRecords :=
              (monthAttendanceOf attendance employeeId month).filter
                (fun record => record.customType == some CustomType.halfDay)
            customPaymentRecords :=
              (monthAttendanceOf attendance employeeId month).filter
                (fun record => record.customType == some CustomType.custom) } := by
  unfold generateMonthlyReport at h
  cases hf : employees.find? (fun x => x.id == employeeId) with
  | none => rw [hf] at h; simp at h
  | some e =>
    rw [hf] at h
    simp only [Option.some.injEq] at h
    refine ⟨e, rfl, ?_⟩
    rw [← h]
    simp only [monthAttendanceOf, monthAdvancesOf, monthSalaryPaymentsOf,
      wages_foldl, foldl_add_sum, zero_add]

/-! ## Small helper facts about the month range -/

theorem Date.le_refl (d : Date) : Date.le d d = true := by
  simp [Date.le]

theorem one_le_daysInMonth (y : Int) (m : Nat) : 1 ≤ daysInMonth y m := by
  unfold daysInMonth
  split_ifs <;> norm_num

theorem inMonthRange_first (month : Month) :
    inMonthRange month ⟨month.year, month.month, 1⟩ = true := by
  simp [inMonthRange, Date.le, one_le_daysInMonth]

theorem inMonthRange_last (month : Month) :
    inMonthRange month
      ⟨month.year, month.month, daysInMonth month.year month.month⟩ = true := by
  simp [inMonthRange, Date.le, one_le_daysInMonth]

/-! ## Shared concrete sample data used by the witnesses -/

def empA : Employee :=
  { id := "e1", name := "Asha Rao", designation := "Mason", dailyWage := 500,
    contactNumber := "9000000000", photo := none }

/-- Present on the first calendar day of 2024-01, no custom adjustment. -/
def attA1 : AttendanceRecord :=
  { id := "a1", employeeId := "e1", date := ⟨2024, 1, 1⟩, present := true,
    customType := none, customAmount := none }

/-- Absent, overtime tag with amount 300, on the last calendar day of
2024-01. -/
def attA2 : AttendanceRecord :=
  { id := "a2", employeeId := "e1", date := ⟨2024, 1, 31⟩, present := false,
    customType := some CustomType.ot, customAmount := some 300 }

/-- One day past the end boundary (2024-02-01). -/
def attA3 : AttendanceRecord :=
  { id := "a3", employeeId := "e1", date := ⟨2024, 2, 1⟩, present := true,
    customType := none, customAmount := none }

/-- One day before the start boundary (2023-12-31). -/
def attA4 : AttendanceRecord :=
  { id := "a4", employeeId := "e1", date := ⟨2023, 12, 31⟩, present := true,
    customType := none, customAmount := none }

/-- A different employee, inside the month. -/
def attA5 : AttendanceRecord :=
  { id := "a5", employeeId := "e2", date := ⟨2024, 1, 5⟩, present := true,
    customType := none, customAmount := none }

def advA : Advance :=
  { id := "d1", employeeId := "e1", date := ⟨2024, 1, 10⟩, amount := 2000,
    description := "advance" }

def payA : SalaryPayment :=
  { id := "p1", employeeId := "e1", paymentDate := ⟨2024, 1, 20⟩,
    amount := 5000, description := "salary" }

def sampleAttendance : List AttendanceRecord := [attA1, attA2, attA3, attA4, attA5]

/-- What `generateMonthlyReport` produces on the sample data for
employee `e1` and month 2024-01. -/
def sampleReport : MonthlyReport :=
  { employeeId := "e1", month := ⟨2024, 1⟩, totalDaysWorked := 1,
    baseWages := 500, additionalEarnings := 300, totalWagesEarned := 800,
    totalAdvancesTaken := 2000, totalSalaryPaid := 5000,
    finalAmount := -6200,
    attendanceDetails := [attA1, attA2], advanceDetails := [advA],
    salaryPaymentDetails := [payA], otRecords := [attA2],
    halfDayRecords := [], customPaymentRecords := [] }

theorem sampleGen :
    generateMonthlyReport [empA] sampleAttendance [advA] [payA] "e1" ⟨2024, 1⟩
      = some sampleReport := by decide

/-! ## Claims -/

/-- C1: whenever `generateMonthlyReport` returns a report, the report
satisfies exactly `totalWagesEarned = baseWages + additionalEarnings`
and `finalAmount = totalWagesEarned - totalAdvancesTaken -
totalSalaryPaid`, where `totalAdvancesTaken` is the sum of the filtered
advance amounts and `totalSalaryPaid` is the sum of the filtered
salary-payment amounts. -/
theorem report_totals_exact
    (employees : List Employee) (attendance : List AttendanceRecord)
    (advances : List Advance) (salaryPayments : List SalaryPayment)
    (employeeId : String) (month : Month) (r : MonthlyReport)
    (h : generateMonthlyReport employees attendance advances salaryPayments
      employeeId month = some r) :
    r.totalWagesEarned = r.baseWages + r.additionalEarnings ∧
    r.finalAmount = r.totalWagesEarned - r.totalAdvancesTaken - r.totalSalaryPaid ∧
    r.totalAdvancesTaken = (r.advanceDetails.map (fun a => a.amount)).sum ∧
    r.totalSalaryPaid = (r.salaryPaymentDetails.map (fun p => p.amount)).sum := by
  obtain ⟨e, -, rfl⟩ := generateMonthlyReport_eq_some h
  exact ⟨rfl, rfl, rfl, rfl⟩

theorem report_totals_exact_witness :
    sampleReport.totalWagesEarned =
      sampleReport.baseWages + sampleReport.additionalEarnings ∧
    sampleReport.finalAmount = sampleReport.totalWagesEarned -
      sampleReport.totalAdvancesTaken - sampleReport.totalSalaryPaid ∧
    sampleReport.totalAdvancesTaken =
      (sampleReport.advanceDetails.map (fun a => a.amount)).sum ∧
    sampleReport.totalSalaryPaid =
      (sampleReport.salaryPaymentDetails.map (fun p => p.amount)).sum :=
  report_totals_exact [empA] sampleAttendance [advA] [payA] "e1" ⟨2024, 1⟩
    sampleReport sampleGen

/-- C2: a record of the target employee is in the report's filtered
detail lists iff its date lies in the inclusive `[first day, last day]`
range of the target month; the first and last calendar days themselves
satisfy the range test. -/
theorem month_filter_inclusive
    (employees : List Employee) (attendance : List AttendanceRecord)
    (advances : List Advance) (salaryPayments : List SalaryPayment)
    (employeeId : String) (month : Month) (r : MonthlyReport)
    (h : generateMonthlyReport employees attendance advances salaryPayments
      employeeId month = some r) :
    (∀ a : AttendanceRecord, a.employeeId = employeeId →
      (a ∈ r.attendanceDetails ↔ a ∈ attendance ∧ inMonthRange month a.date = true)) ∧
    (∀ a : Advance, a.employeeId = employeeId →
      (a ∈ r.advanceDetails ↔ a ∈ advances ∧ inMonthRange month a.date = true)) ∧
    (∀ p : SalaryPayment, p.employeeId = employeeId →
      (p ∈ r.salaryPaymentDetails ↔
        p ∈ salaryPayments ∧ inMonthRange month p.paymentDate = true)) ∧
    inMonthRange month ⟨month.year, month.month, 1⟩ = true ∧
    inMonthRange month
      ⟨month.year, month.month, daysInMonth month.year month.month⟩ = true := by
  obtain ⟨e, -, rfl⟩ := generateMonthlyReport_eq_some h
  refine ⟨?_, ?_, ?_, inMonthRange_first month, inMonthRange_last month⟩
  · intro a ha
    simp [monthAttendanceOf, List.mem_filter, ha, inMonthRange, Bool.and_assoc]
  · intro a ha
    simp [monthAdvancesOf, List.mem_filter, ha, inMonthRange, Bool.and_assoc]
  · intro p hp
    simp [monthSalaryPaymentsOf, List.mem_filter, hp, inMonthRange, Bool.and_assoc]

theorem month_filter_inclusive_witness :
    (attA1 ∈ sampleReport.attendanceDetails ↔
      attA1 ∈ sampleAttendance ∧ inMonthRange ⟨2024, 1⟩ attA1.date = true) ∧
    (attA3 ∈ sampleReport.attendanceDetails ↔
      attA3 ∈ sampleAttendance ∧ inMonthRange ⟨2024, 1⟩ attA3.date = true) ∧
    (attA4 ∈ sampleReport.attendanceDetails ↔
      attA4 ∈ sampleAttendance ∧ inMonthRange ⟨2024, 1⟩ attA4.date = true) ∧
    attA1 ∈ sampleReport.attendanceDetails ∧
    attA2 ∈ sampleReport.attendanceDetails ∧
    attA3 ∉ sampleReport.attendanceDetails ∧
    attA4 ∉ sampleReport.attendanceDetails :=
  ⟨(month_filter_inclusive [empA] sampleAttendance [advA] [payA] "e1" ⟨2024, 1⟩
      sampleReport sampleGen).1 attA1 (by decide),
   (month_filter_inclusive [empA] sampleAttendance [advA] [payA] "e1" ⟨2024, 1⟩
      sampleReport sampleGen).1 attA3 (by decide),
   (month_filter_inclusive [empA] sampleAttendance [advA] [payA] "e1" ⟨2024, 1⟩
      sampleReport sampleGen).1 attA4 (by decide),
   by decide, by decide, by decide, by decide⟩

/-- C3: the engine is total — it returns `none` exactly when the
employee identifier does not resolve, and a report whenever it does;
no other outcome exists. -/
theorem lookup_miss_returns_none
    (employees : List Employee) (attendance : List AttendanceRecord)
    (advances : List Advance) (salaryPayments : List SalaryPayment)
    (employeeId : String) (month : Month) :
    (generateMonthlyReport employees attendance advances salaryPayments
        employeeId month = none ↔
      employees.find? (fun e => e.id == employeeId) = none) ∧
    (∀ e, employees.find? (fun e => e.id == employeeId) = some e →
      ∃ r, generateMonthlyReport employees attendance advances salaryPayments
        employeeId month = some r) := by
  unfold generateMonthlyReport
  cases hf : employees.find? (fun e => e.id == employeeId) <;> simp [hf]

theorem lookup_miss_returns_none_witness :
    generateMonthlyReport [empA] sampleAttendance [advA] [payA] "nobody"
      ⟨2024, 1⟩ = none :=
  (lookup_miss_returns_none [empA] sampleAttendance [advA] [payA] "nobody"
    ⟨2024, 1⟩).1.mpr (by decide)

/-- C4: `additionalEarnings` is the sum of the custom amounts of all
filtered attendance records (a missing amount counting as zero),
independent of the presence flag, while `totalDaysWorked` counts only
the filtered records whose presence flag is true. -/
theorem additional_earnings_sum
    (employees : List Employee) (attendance : List AttendanceRecord)
    (advances : List Advance) (salaryPayments : List SalaryPayment)
    (employeeId : String) (month : Month) (r : MonthlyReport)
    (h : generateMonthlyReport employees attendance advances salaryPayments
      employeeId month = some r) :
    r.additionalEarnings =
      (r.attendanceDetails.map (fun a => a.customAmount.getD 0)).sum ∧
    r.totalDaysWorked = (r.attendanceDetails.filter (fun a => a.present)).length := by
  obtain ⟨e, -, rfl⟩ := generateMonthlyReport_eq_some h
  exact ⟨rfl, rfl⟩

theorem additional_earnings_sum_witness :
    (sampleReport.additionalEarnings =
      (sampleReport.attendanceDetails.map (fun a => a.customAmount.getD 0)).sum ∧
     sampleReport.totalDaysWorked =
      (sampleReport.attendanceDetails.filter (fun a => a.present)).length) ∧
    sampleReport.additionalEarnings = 300 ∧
    sampleReport.totalDaysWorked = 1 ∧
    attA2.present = false ∧ attA2.customAmount = some 300 :=
  ⟨additional_earnings_sum [empA] sampleAttendance [advA] [payA] "e1" ⟨2024, 1⟩
      sampleReport sampleGen,
   by decide, by decide, by decide, by decide⟩

/-- C5: the balance formatter returns the unsigned formatted zero for a
zero balance, and `"+" ++ format |x|` for every non-zero balance,
positive or negative. -/
theorem formatBalance_plus_abs (formatCurrency : Int → String) (x : Int) :
    formatBalance formatCurrency 0 = formatCurrency 0 ∧
    (x ≠ 0 → formatBalance formatCurrency x = "+" ++ formatCurrency |x|) := by
  refine ⟨by simp [formatBalance], fun hx => ?_⟩
  unfold formatBalance
  rcases lt_trichotomy x 0 with hlt | heq | hgt
  · rw [if_neg hx, if_neg (by omega)]
  · exact absurd heq hx
  · rw [if_neg hx, if_pos hgt, abs_of_pos hgt]

theorem formatBalance_plus_abs_witness :
    ((-6200 : Int) ≠ 0 ∧
      formatBalance (fun _ => "₹x") (-6200) = "+" ++ (fun _ => "₹x") |(-6200 : Int)|) ∧
    formatBalance (fun _ => "₹x") 0 = (fun _ => "₹x") (0 : Int) ∧
    formatBalance (fun _ => "₹x") 6200 = "+" ++ (fun _ => "₹x") |(6200 : Int)| :=
  ⟨⟨by decide, (formatBalance_plus_abs (fun _ => "₹x") (-6200)).2 (by decide)⟩,
   (formatBalance_plus_abs (fun _ => "₹x") 0).1,
   (formatBalance_plus_abs (fun _ => "₹x") 6200).2 (by decide)⟩

/-- C6: the three custom-category detail lists are pairwise disjoint,
each is a subset of the full filtered attendance list, and an untagged
record appears in none of the three while remaining in the full list. -/
theorem category_lists_partition
    (employees : List Employee) (attendance : List AttendanceRecord)
    (advances : List Advance) (salaryPayments : List SalaryPayment)
    (employeeId : String) (month : Month) (r : MonthlyReport)
    (h : generateMonthlyReport employees attendance advances salaryPayments
      employeeId month = some r) :
    (∀ x ∈ r.otRecords, x ∉ r.halfDayRecords) ∧
    (∀ x ∈ r.otRecords, x ∉ r.customPaymentRecords) ∧
    (∀ x ∈ r.halfDayRecords, x ∉ r.customPaymentRecords) ∧
    (∀ x ∈ r.otRecords, x ∈ r.attendanceDetails) ∧
    (∀ x ∈ r.halfDayRecords, x ∈ r.attendanceDetails) ∧
    (∀ x ∈ r.customPaymentRecords, x ∈ r.attendanceDetails) ∧
    (∀ x ∈ r.attendanceDetails, x.customType = none →
      x ∉ r.otRecords ∧ x ∉ r.halfDayRecords ∧ x ∉ r.customPaymentRecords) := by
  obtain ⟨e, -, rfl⟩ := generateMonthlyReport_eq_some h
  refine ⟨?_, ?_, ?_,
    fun x hx => (List.mem_filter.mp hx).1,
    fun x hx => (List.mem_filter.mp hx).1,
    fun x hx => (List.mem_filter.mp hx).1, ?_⟩
  · intro x hx hy
    have h1 := (List.mem_filter.mp hx).2
    have h2 := (List.mem_filter.mp hy).2
    simp_all
  · intro x hx hy
    have h1 := (List.mem_filter.mp hx).2
    have h2 := (List.mem_filter.mp hy).2
    simp_all
  · intro x hx hy
    have h1 := (List.mem_filter.mp hx).2
    have h2 := (List.mem_filter.mp hy).2
    simp_all
  · intro x hx hnone
    refine ⟨?_, ?_, ?_⟩ <;> intro hy <;>
      · have := (List.mem_filter.mp hy).2
        simp [hnone] at this

theorem category_lists_partition_witness :
    attA2 ∉ sampleReport.halfDayRecords ∧
    attA2 ∈ sampleReport.attendanceDetails ∧
    (attA1 ∉ sampleReport.otRecords ∧ attA1 ∉ sampleReport.halfDayRecords ∧
      attA1 ∉ sampleReport.customPaymentRecords) ∧
    attA2 ∈ sampleReport.otRecords :=
  ⟨(category_lists_partition [empA] sampleAttendance [advA] [payA] "e1"
      ⟨2024, 1⟩ sampleReport sampleGen).1 attA2 (by decide),
   (category_lists_partition [empA] sampleAttendance [advA] [payA] "e1"
      ⟨2024, 1⟩ sampleReport sampleGen).2.2.2.1 attA2 (by decide),
   (category_lists_partition [empA] sampleAttendance [advA] [payA] "e1"
      ⟨2024, 1⟩ sampleReport sampleGen).2.2.2.2.2.2 attA1 (by decide) (by decide),
   by decide⟩

/-- C8: the search filter keeps exactly the employees whose name or
designation contains the search term as a case-insensitive substring,
and the empty term keeps everyone. -/
theorem search_filter_exact (employees : List Employee) (searchTerm : String) :
    (∀ e, e ∈ filteredEmployees employees searchTerm ↔
      e ∈ employees ∧
        ((jsToLower searchTerm).data <:+: (jsToLower e.name).data ∨
         (jsToLower searchTerm).data <:+: (jsToLower e.designation).data)) ∧
    filteredEmployees employees "" = employees := by
  constructor
  · intro e
    simp [filteredEmployees, List.mem_filter]
  · have h0 : (jsToLower "").data = [] := by decide
    unfold filteredEmployees
    rw [List.filter_eq_self]
    intro a _
    simp [h0, List.nil_infix]

/-- C9: the engine and the search filter are deterministic functions of
the collections they read, and an invocation leaves those collections
unchanged (every array operation used — `find`, `filter`, `reduce`,
`forEach` — is non-mutating, so the embedding is a pure function of its
inputs). -/
theorem engine_deterministic_pure
    (employees employees2 : List Employee)
    (attendance attendance2 : List AttendanceRecord)
    (advances advances2 : List Advance)
    (salaryPayments salaryPayments2 : List SalaryPayment)
    (employeeId : String) (month : Month) (searchTerm : String)
    (he : employees = employees2) (ha : attendance = attendance2)
    (hd : advances = advances2) (hs : salaryPayments = salaryPayments2) :
    generateMonthlyReport employees attendance advances salaryPayments
        employeeId month =
      generateMonthlyReport employees2 attendance2 advances2 salaryPayments2
        employeeId month ∧
    filteredEmployees employees searchTerm =
      filteredEmployees employees2 searchTerm := by
  subst he ha hd hs
  exact ⟨rfl, rfl⟩

theorem engine_deterministic_pure_witness :
    generateMonthlyReport [empA] sampleAttendance [advA] [payA] "e1" ⟨2024, 1⟩ =
      generateMonthlyReport [empA] sampleAttendance [advA] [payA] "e1" ⟨2024, 1⟩ ∧
    filteredEmployees [empA] "mason" = filteredEmployees [empA] "mason" :=
  engine_deterministic_pure [empA] [empA] sampleAttendance sampleAttendance
    [advA] [advA] [payA] [payA] "e1" ⟨2024, 1⟩ "mason" rfl rfl rfl rfl

theorem cat_filter_sum_le :
    ∀ (l : List AttendanceRecord),
      (∀ a ∈ l, 0 ≤ a.customAmount.getD 0) →
      ((l.filter (fun a => a.customType == some CustomType.ot)).map
        (fun a => a.customAmount.getD 0)).sum +
      ((l.filter (fun a => a.customType == some CustomType.halfDay)).map
        (fun a => a.customAmount.getD 0)).sum +
      ((l.filter (fun a => a.customType == some CustomType.custom)).map
        (fun a => a.customAmount.getD 0)).sum ≤
      (l.map (fun a => a.customAmount.getD 0)).sum
  | [], _ => by simp
  | a :: l, hnn => by
    have h0 : 0 ≤ a.customAmount.getD 0 := hnn a (by simp)
    have ih := cat_filter_sum_le l (fun x hx => hnn x (List.mem_cons_of_mem _ hx))
    rcases hct : a.customType with _ | ct
    · simp only [List.filter_cons, hct, List.map_cons, List.sum_cons]
      simp only [show ((none : Option CustomType) == some CustomType.ot) = false
        from rfl,
        show ((none : Option CustomType) == some CustomType.halfDay) = false
          from rfl,
        show ((none : Option CustomType) == some CustomType.custom) = false
          from rfl, if_false, Bool.false_eq_true]
      omega
    · cases ct <;>
        simp only [List.filter_cons, hct, List.map_cons, List.sum_cons] <;>
        simp only [show ∀ x y : CustomType, (some x == some y) = (x == y) from
          fun x y => rfl] <;>
        simp <;> omega

def attB : AttendanceRecord :=
  { id := "b1", employeeId := "e1", date := ⟨2024, 1, 12⟩, present := true,
    customType := none, customAmount := some 100 }

/-- The report for the untagged-custom-amount input: the 100 counts in
`additionalEarnings` but belongs to no category list. -/
def sampleReportB : MonthlyReport :=
  { employeeId := "e1", month := ⟨2024, 1⟩, totalDaysWorked := 1,
    baseWages := 500, additionalEarnings := 100, totalWagesEarned := 600,
    totalAdvancesTaken := 0, totalSalaryPaid := 0, finalAmount := 600,
    attendanceDetails := [attB], advanceDetails := [],
    salaryPaymentDetails := [], otRecords := [], halfDayRecords := [],
    customPaymentRecords := [] }

/-- C10: when all filtered custom amounts are non-negative, the custom
amounts summed over the three category lists are at most
`additionalEarnings`; and on some input the inequality is strict (a
custom amount with no category tag counts in `additionalEarnings` but
in no category list). -/
theorem category_sums_bound
    (employees : List Employee) (attendance : List AttendanceRecord)
    (advances : List Advance) (salaryPayments : List SalaryPayment)
    (employeeId : String) (month : Month) (r : MonthlyReport)
    (h : generateMonthlyReport employees attendance advances salaryPayments
      employeeId month = some r)
    (hnn : ∀ a ∈ r.attendanceDetails, 0 ≤ a.customAmount.getD 0) :
    ((r.otRecords.map (fun a => a.customAmount.getD 0)).sum +
     (r.halfDayRecords.map (fun a => a.customAmount.getD 0)).sum +
     (r.customPaymentRecords.map (fun a => a.customAmount.getD 0)).sum ≤
      r.additionalEarnings) ∧
    (∃ r' : MonthlyReport,
      generateMonthlyReport [empA] [attB] [] [] "e1" ⟨2024, 1⟩ = some r' ∧
      (r'.otRecords.map (fun a => a.customAmount.getD 0)).sum +
      (r'.halfDayRecords.map (fun a => a.customAmount.getD 0)).sum +
      (r'.customPaymentRecords.map (fun a => a.customAmount.getD 0)).sum <
        r'.additionalEarnings) := by
  constructor
  · obtain ⟨e, -, rfl⟩ := generateMonthlyReport_eq_some h
    exact cat_filter_sum_le _ (by simpa using hnn)
  · exact ⟨sampleReportB, by decide, by decide⟩

theorem category_sums_bound_witness :
    ((sampleReport.otRecords.map (fun a => a.customAmount.getD 0)).sum +
     (sampleReport.halfDayRecords.map (fun a => a.customAmount.getD 0)).sum +
     (sampleReport.customPaymentRecords.map (fun a => a.customAmount.getD 0)).sum ≤
      sampleReport.additionalEarnings) ∧
    (∃ r' : MonthlyReport,
      generateMonthlyReport [empA] [attB] [] [] "e1" ⟨2024, 1⟩ = some r' ∧
      (r'.otRecords.map (fun a => a.customAmount.getD 0)).sum +
      (r'.halfDayRecords.map (fun a => a.customAmount.getD 0)).sum +
      (r'.customPaymentRecords.map (fun a => a.customAmount.getD 0)).sum <
        r'.additionalEarnings) :=
  category_sums_bound [empA] sampleAttendance [advA] [payA] "e1" ⟨2024, 1⟩
    sampleReport sampleGen (by decide)

/-! ## The payslip text exporter -/

/-- The `reportContent` template literal of `downloadReport`
(`ReportManager.tsx` lines 129–175), as a function of the report, the
employee, and the external collaborators: `fc` is `formatCurrency`,
`fm` is `toLocaleDateString('en-IN', {month:'long', year:'numeric'})`
applied to the month, `fd` is `toLocaleDateString('en-IN')` applied to a
record date, and `generatedOn` is today's formatted date.  Each
`${... ? ... : ''}` conditional and each `.map(...).join('\n')` detail
section is transcribed verbatim; JS truthiness of `a.customAmount`
is "`some c` with `c ≠ 0`". -/
def buildReportContent (fc : Int → String) (fm : Month → String)
    (fd : Date → String) (generatedOn : String)
    (e : Employee) (r : MonthlyReport) : String :=
  "\nMONTHLY PAYSLIP REPORT\n======================\n\nEmployee Details:\nName: "
    ++ e.name
    ++ "\nDesignation: " ++ e.designation
    ++ "\nContact: " ++ e.contactNumber
    ++ "\nDaily Wage: " ++ fc e.dailyWage
    ++ "\n\nReport Period: " ++ fm r.month
    ++ "\n\nEARNINGS BREAKDOWN:\nBase Wages (" ++ Nat.repr r.totalDaysWorked
    ++ " days × " ++ fc e.dailyWage ++ "): " ++ fc r.baseWages
    ++ "\nAdditional Earnings: " ++ fc r.additionalEarnings ++ "\n"
    ++ (if r.otRecords.length > 0 then
          "Overtime (" ++ Nat.repr r.otRecords.length ++ " days): "
            ++ fc (r.otRecords.foldl
                (fun sum record => sum + record.customAmount.getD 0) 0)
        else "") ++ "\n"
    ++ (if r.halfDayRecords.length > 0 then
          "Half Days (" ++ Nat.repr r.halfDayRecords.length ++ " days): "
            ++ fc (r.halfDayRecords.foldl
                (fun sum record => sum + record.customAmount.getD 0) 0)
        else "") ++ "\n"
    ++ (if r.customPaymentRecords.length > 0 then
          "Custom Payments (" ++ Nat.repr r.customPaymentRecords.length ++ "): "
            ++ fc (r.customPaymentRecords.foldl
                (fun sum record => sum + record.customAmount.getD 0) 0)
        else "") ++ "\n"
    ++ "Total Wages Earned: " ++ fc r.totalWagesEarned
    ++ "\n\nDEDUCTIONS:\nAdvances Taken: " ++ fc r.totalAdvancesTaken
    ++ "\nSalary Already Paid: " ++ fc r.totalSalaryPaid
    ++ "\n\nFINAL CALCULATION:\nTotal Wages Earned: " ++ fc r.totalWagesEarned
    ++ "\nLess: Advances: " ++ fc r.totalAdvancesTaken
    ++ "\nLess: Salary Paid: " ++ fc r.totalSalaryPaid
    ++ "\nFinal Amount: " ++ formatBalance fc r.finalAmount
    ++ "\n\nATTENDANCE DETAILS:\n"
    ++ String.intercalate "\n" (r.attendanceDetails.map (fun a =>
         fd a.date ++ ": " ++ (if a.present then "Present" else "Absent")
           ++ (match a.customType with
               | some ct => " (" ++ ct.toStr ++ ")"
               | none => "")
           ++ (match a.customAmount with
               | some c => if c ≠ 0 then " +" ++ fc c else ""
               | none => "")))
    ++ "\n\nADVANCE DETAILS:\n"
    ++ String.intercalate "\n" (r.advanceDetails.map (fun a =>
         fd a.date ++ ": " ++ fc a.amount ++ " - " ++ a.description))
    ++ "\n\nSALARY PAYMENT DETAILS:\n"
    ++ String.intercalate "\n" (r.salaryPaymentDetails.map (fun p =>
         fd p.paymentDate ++ ": " ++ fc p.amount ++ " - " ++ p.description))
    ++ "\n\nGenerated on: " ++ generatedOn ++ "\n    "

theorem digitChar_ne_newline (m : Nat) (hm : m < 16) :
    Nat.digitChar m ≠ '\n' := by
  interval_cases m <;> decide

theorem toDigitsCore_ne_newline :
    ∀ (fuel n : Nat) (ds : List Char), (∀ c ∈ ds, c ≠ '\n') →
      ∀ c ∈ Nat.toDigitsCore 10 fuel n ds, c ≠ '\n'
  | 0, _, ds, hds => by
      intro c hc
      simp only [Nat.toDigitsCore] at hc
      exact hds c hc
  | fuel + 1, n, ds, hds => by
      intro c hc
      simp only [Nat.toDigitsCore] at hc
      split at hc
      · rcases List.mem_cons.mp hc with h | h
        · subst h; exact digitChar_ne_newline _ (by omega)
        · exact hds c h
      · refine toDigitsCore_ne_newline fuel (n / 10)
          (Nat.digitChar (n % 10) :: ds) ?_ c hc
        intro x hx
        rcases List.mem_cons.mp hx with h | h
        · subst h; exact digitChar_ne_newline _ (by omega)
        · exact hds x h

theorem repr_newline_free (n : Nat) : '\n' ∉ (Nat.repr n).data := by
  intro h
  exact toDigitsCore_ne_newline (n + 1) n [] (by simp) '\n' h rfl

/-- The overtime conditional sub-line slot of the template (line 144). -/
def otSlot (fc : Int → String) (r : MonthlyReport) : String :=
  if r.otRecords.length > 0 then
    "Overtime (" ++ Nat.repr r.otRecords.length ++ " days): "
      ++ fc (r.otRecords.foldl
          (fun sum record => sum + record.customAmount.getD 0) 0)
  else ""

/-- The half-day conditional sub-line slot of the template (line 145). -/
def halfDaySlot (fc : Int → String) (r : MonthlyReport) : String :=
  if r.halfDayRecords.length > 0 then
    "Half Days (" ++ Nat.repr r.halfDayRecords.length ++ " days): "
      ++ fc (r.halfDayRecords.foldl
          (fun sum record => sum + record.customAmount.getD 0) 0)
  else ""

/-- The custom-payment conditional sub-line slot of the template
(line 146). -/
def customSlot (fc : Int → String) (r : MonthlyReport) : String :=
  if r.customPaymentRecords.length > 0 then
    "Custom Payments (" ++ Nat.repr r.customPaymentRecords.length ++ "): "
      ++ fc (r.customPaymentRecords.foldl
          (fun sum record => sum + record.customAmount.getD 0) 0)
  else ""

/-- The fixed template text before the three conditional sub-line
slots. -/
def buildPrefixPart (fc : Int → String) (fm : Month → String)
    (e : Employee) (r : MonthlyReport) : String :=
  "\nMONTHLY PAYSLIP REPORT\n======================\n\nEmployee Details:\nName: "
    ++ e.name
    ++ "\nDesignation: " ++ e.designation
    ++ "\nContact: " ++ e.contactNumber
    ++ "\nDaily Wage: " ++ fc e.dailyWage
    ++ "\n\nReport Period: " ++ fm r.month
    ++ "\n\nEARNINGS BREAKDOWN:\nBase Wages (" ++ Nat.repr r.totalDaysWorked
    ++ " days × " ++ fc e.dailyWage ++ "): " ++ fc r.baseWages
    ++ "\nAdditional Earnings: " ++ fc r.additionalEarnings ++ "\n"

/-- The template text after the three conditional sub-line slots. -/
def buildSuffixPart (fc : Int → String) (fd : Date → String)
    (generatedOn : String) (r : MonthlyReport) : String :=
  "Total Wages Earned: " ++ fc r.totalWagesEarned
    ++ "\n\nDEDUCTIONS:\nAdvances Taken: " ++ fc r.totalAdvancesTaken
    ++ "\nSalary Already Paid: " ++ fc r.totalSalaryPaid
    ++ "\n\nFINAL CALCULATION:\nTotal Wages Earned: " ++ fc r.totalWagesEarned
    ++ "\nLess: Advances: " ++ fc r.totalAdvancesTaken
    ++ "\nLess: Salary Paid: " ++ fc r.totalSalaryPaid
    ++ "\nFinal Amount: " ++ formatBalance fc r.finalAmount
    ++ "\n\nATTENDANCE DETAILS:\n"
    ++ String.intercalate "\n" (r.attendanceDetails.map (fun a =>
         fd a.date ++ ": " ++ (if a.present then "Present" else "Absent")
           ++ (match a.customType with
               | some ct => " (" ++ ct.toStr ++ ")"
               | none => "")
           ++ (match a.customAmount with
               | some c => if c ≠ 0 then " +" ++ fc c else ""
               | none => "")))
    ++ "\n\nADVANCE DETAILS:\n"
    ++ String.intercalate "\n" (r.advanceDetails.map (fun a =>
         fd a.date ++ ": " ++ fc a.amount ++ " - " ++ a.description))
    ++ "\n\nSALARY PAYMENT DETAILS:\n"
    ++ String.intercalate "\n" (r.salaryPaymentDetails.map (fun p =>
         fd p.paymentDate ++ ": " ++ fc p.amount ++ " - " ++ p.description))
    ++ "\n\nGenerated on: " ++ generatedOn ++ "\n    "

theorem build_decomp (fc : Int → String) (fm : Month → String)
    (fd : Date → String) (g : String) (e : Employee) (r : MonthlyReport) :
    buildReportContent fc fm fd g e r =
      buildPrefixPart fc fm e r ++ otSlot fc r ++ "\n" ++ halfDaySlot fc r
        ++ "\n" ++ customSlot fc r ++ "\n" ++ buildSuffixPart fc fd g r := by
  apply String.ext
  simp only [buildReportContent, buildPrefixPart, otSlot, halfDaySlot,
    customSlot, buildSuffixPart, String.data_append, List.append_assoc]

theorem otSlot_of_ne (fc : Int → String) (r : MonthlyReport)
    (h : r.otRecords ≠ []) :
    otSlot fc r = "Overtime (" ++ Nat.repr r.otRecords.length ++ " days): "
      ++ fc (r.otRecords.foldl
          (fun sum record => sum + record.customAmount.getD 0) 0) := by
  unfold otSlot
  rw [if_pos (List.length_pos.mpr h)]

theorem halfDaySlot_of_ne (fc : Int → String) (r : MonthlyReport)
    (h : r.halfDayRecords ≠ []) :
    halfDaySlot fc r = "Half Days (" ++ Nat.repr r.halfDayRecords.length
      ++ " days): "
      ++ fc (r.halfDayRecords.foldl
          (fun sum record => sum + record.customAmount.getD 0) 0) := by
  unfold halfDaySlot
  rw [if_pos (List.length_pos.mpr h)]

theorem customSlot_of_ne (fc : Int → String) (r : MonthlyReport)
    (h : r.customPaymentRecords ≠ []) :
    customSlot fc r = "Custom Payments ("
      ++ Nat.repr r.customPaymentRecords.length ++ "): "
      ++ fc (r.customPaymentRecords.foldl
          (fun sum record => sum + record.customAmount.getD 0) 0) := by
  unfold customSlot
  rw [if_pos (List.length_pos.mpr h)]

theorem otSlot_count (fc : Int → String) (r : MonthlyReport)
    (hfc : ∀ n, '\n' ∉ (fc n).data) :
    (otSlot fc r).data.count '\n' = 0 := by
  unfold otSlot
  split
  · simp only [String.data_append, List.count_append]
    rw [List.count_eq_zero.mpr (repr_newline_free r.otRecords.length),
      List.count_eq_zero.mpr (hfc (r.otRecords.foldl
        (fun sum record => sum + record.customAmount.getD 0) 0))]
    decide
  · simp

theorem halfDaySlot_count (fc : Int → String) (r : MonthlyReport)
    (hfc : ∀ n, '\n' ∉ (fc n).data) :
    (halfDaySlot fc r).data.count '\n' = 0 := by
  unfold halfDaySlot
  split
  · simp only [String.data_append, List.count_append]
    rw [List.count_eq_zero.mpr (repr_newline_free r.halfDayRecords.length),
      List.count_eq_zero.mpr (hfc (r.halfDayRecords.foldl
        (fun sum record => sum + record.customAmount.getD 0) 0))]
    decide
  · simp

theorem customSlot_count (fc : Int → String) (r : MonthlyReport)
    (hfc : ∀ n, '\n' ∉ (fc n).data) :
    (customSlot fc r).data.count '\n' = 0 := by
  unfold customSlot
  split
  · simp only [String.data_append, List.count_append]
    rw [List.count_eq_zero.mpr (repr_newline_free r.customPaymentRecords.length),
      List.count_eq_zero.mpr (hfc (r.customPaymentRecords.foldl
        (fun sum record => sum + record.customAmount.getD 0) 0))]
    decide
  · simp

/-- A report with no records at all, all category lists empty. -/
def emptyReportC : MonthlyReport :=
  { employeeId := "e1", month := ⟨2024, 1⟩, totalDaysWorked := 0,
    baseWages := 0, additionalEarnings := 0, totalWagesEarned := 0,
    totalAdvancesTaken := 0, totalSalaryPaid := 0, finalAmount := 0,
    attendanceDetails := [], advanceDetails := [], salaryPaymentDetails := [],
    otRecords := [], halfDayRecords := [], customPaymentRecords := [] }

set_option maxRecDepth 100000

/-- C7 counterexample: for a report whose three category lists are all
empty, the exported text still contains three blank lines between the
"Additional Earnings" line and the "Total Wages Earned" line — the
`${cond ? ... : ''}` interpolation yields the empty string but the
template's line breaks remain, so a trace (a blank line) does appear
for each empty category. -/
theorem payslip_blank_line_counterexample :
    emptyReportC.otRecords = [] ∧ emptyReportC.halfDayRecords = [] ∧
    emptyReportC.customPaymentRecords = [] ∧
    ("Additional Earnings: N\n\n\n\nTotal Wages Earned: N" : String).data <:+:
      (buildReportContent (fun _ => "N") (fun _ => "M") (fun _ => "D") "G"
        empA emptyReportC).data :=
  ⟨rfl, rfl, rfl, by decide⟩

/-- C7 (amended): when a category detail list is non-empty the payslip
contains its sub-line with the count and the summed custom amount; when
it is empty the interpolated slot is the empty string, but the
template's line break remains, so the total number of lines (counted by
line breaks) is unchanged compared to the same report with all three
category lists empty. -/
theorem payslip_conditional_sublines
    (fc : Int → String) (fm : Month → String) (fd : Date → String)
    (g : String) (e : Employee) (r : MonthlyReport)
    (hfc : ∀ n, '\n' ∉ (fc n).data) :
    (r.otRecords ≠ [] →
      ("Overtime (" ++ Nat.repr r.otRecords.length ++ " days): "
        ++ fc (r.otRecords.foldl
            (fun sum record => sum + record.customAmount.getD 0) 0)).data <:+:
        (buildReportContent fc fm fd g e r).data) ∧
    (r.halfDayRecords ≠ [] →
      ("Half Days (" ++ Nat.repr r.halfDayRecords.length ++ " days): "
        ++ fc (r.halfDayRecords.foldl
            (fun sum record => sum + record.customAmount.getD 0) 0)).data <:+:
        (buildReportContent fc fm fd g e r).data) ∧
    (r.customPaymentRecords ≠ [] →
      ("Custom Payments (" ++ Nat.repr r.customPaymentRecords.length ++ "): "
        ++ fc (r.customPaymentRecords.foldl
            (fun sum record => sum + record.customAmount.getD 0) 0)).data <:+:
        (buildReportContent fc fm fd g e r).data) ∧
    (buildReportContent fc fm fd g e r).data.count '\n' =
      (buildReportContent fc fm fd g e
        { r with otRecords := [], halfDayRecords := [],
                 customPaymentRecords := [] }).data.count '\n' := by
  refine ⟨?_, ?_, ?_, ?_⟩
  · intro hne
    rw [build_decomp, otSlot_of_ne fc r hne]
    exact ⟨(buildPrefixPart fc fm e r).data,
      ("\n" ++ halfDaySlot fc r ++ "\n" ++ customSlot fc r ++ "\n"
        ++ buildSuffixPart fc fd g r).data,
      by simp [String.data_append, List.append_assoc]⟩
  · intro hne
    rw [build_decomp, halfDaySlot_of_ne fc r hne]
    exact ⟨(buildPrefixPart fc fm e r ++ otSlot fc r ++ "\n").data,
      ("\n" ++ customSlot fc r ++ "\n" ++ buildSuffixPart fc fd g r).data,
      by simp [String.data_append, List.append_assoc]⟩
  · intro hne
    rw [build_decomp, customSlot_of_ne fc r hne]
    exact ⟨(buildPrefixPart fc fm e r ++ otSlot fc r ++ "\n"
        ++ halfDaySlot fc r ++ "\n").data,
      ("\n" ++ buildSuffixPart fc fd g r).data,
      by simp [String.data_append, List.append_assoc]⟩
  · rw [build_decomp, build_decomp]
    have hP : buildPrefixPart fc fm e
        { r with otRecords := [], halfDayRecords := [],
                 customPaymentRecords := [] } = buildPrefixPart fc fm e r := rfl
    have hS : buildSuffixPart fc fd g
        { r with otRecords := [], halfDayRecords := [],
                 customPaymentRecords := [] } = buildSuffixPart fc fd g r := rfl
    have hO : otSlot fc { r with otRecords := [], halfDayRecords := [], customPaymentRecords := [] } = "" := rfl
    have hH : halfDaySlot fc { r with otRecords := [], halfDayRecords := [], customPaymentRecords := [] } = "" := rfl
    have hC : customSlot fc { r with otRecords := [], halfDayRecords := [], customPaymentRecords := [] } = "" := rfl
    rw [hP, hS, hO, hH, hC]
    simp only [String.data_append, List.count_append,
      otSlot_count fc r hfc, halfDaySlot_count fc r hfc,
      customSlot_count fc r hfc]
    simp

theorem payslip_conditional_sublines_witness :
    (∀ n : Int, '\n' ∉ ((fun _ => "N") n : String).data) ∧
    (sampleReport.otRecords ≠ [] →
      ("Overtime (" ++ Nat.repr sampleReport.otRecords.length ++ " days): "
        ++ (fun _ => "N") (sampleReport.otRecords.foldl
            (fun sum record => sum + record.customAmount.getD 0) 0)).data <:+:
        (buildReportContent (fun _ => "N") (fun _ => "M") (fun _ => "D") "G"
          empA sampleReport).data) ∧
    (buildReportContent (fun _ => "N") (fun _ => "M") (fun _ => "D") "G"
        empA sampleReport).data.count '\n' =
      (buildReportContent (fun _ => "N") (fun _ => "M") (fun _ => "D") "G"
        empA { sampleReport with otRecords := [], halfDayRecords := [], customPaymentRecords := [] }).data.count '\n' :=
  ⟨fun _ => (by decide : ('\n' : Char) ∉ ("N" : String).data),
   (payslip_conditional_sublines (fun _ => "N") (fun _ => "M") (fun _ => "D")
      "G" empA sampleReport
      (fun _ => (by decide : ('\n' : Char) ∉ ("N" : String).data))).1,
   (payslip_conditional_sublines (fun _ => "N") (fun _ => "M") (fun _ => "D")
      "G" empA sampleReport
      (fun _ => (by decide : ('\n' : Char) ∉ ("N" : String).data))).2.2.2⟩

end WMS
